import Mathlib

/-!
Verification of the express-swagger prototype (`src/index.ts`).

The repository registers a single PUT route whose wrapped controller
validates the request params, body and query against JSON schemas
(via Ajv), invokes the controller, validates the returned response
body, and either sends it as JSON with status 200 or throws a
descriptive validation error at the first failing stage.

The embedding below translates the runtime behaviour of
`wrappedController`, the example handler `editTodo`, and the three
schema documents (`EditTodoParams.json`, `EditTodoReqBody.json`,
`EditTodoResBody.json`, reproduced in the repository README) into
executable Lean definitions.  The controller is additionally
instrumented with a trace of the pipeline stages it executes, so that
statements such as "the handler is never invoked" can be expressed.
-/

set_option autoImplicit false

namespace ExpressSwagger

/-- Runtime JSON-like values flowing through the wrapper.  `undef`
models JavaScript `undefined`, the result of reading an absent
property; JSON documents proper never contain it. -/
inductive Json where
  | undefined
  | null
  | bool (b : Bool)
  | num (n : Int)
  | str (s : String)
  | obj (fields : List (String × Json))

/-- Property lookup on a field list: the value of the first binding of
`key`, or `undef` when there is none (JavaScript `o[key]`). -/
def getField : List (String × Json) → String → Json
  | [], _ => .undefined
  | (k, v) :: rest, key => if k = key then v else getField rest key

/-- JavaScript property access `o.key`: `undefined` on non-objects. -/
def Json.getProp : Json → String → Json
  | .obj fields, key => getField fields key
  | _, _ => .undefined

/-- Whether a value is JavaScript `undefined`. -/
def Json.isUndefined : Json → Bool
  | .undefined => true
  | _ => false

/-- JavaScript truthiness (`ToBoolean`), as used by the `!` operator in
`editTodo`.  `NaN` does not arise in this program. -/
def Json.truthy : Json → Bool
  | .undefined => false
  | .null => false
  | .bool b => b
  | .num n => decide (n ≠ 0)
  | .str s => decide (s ≠ "")
  | .obj _ => true

/-- `editTodo` from `src/index.ts`: echoes `params.id` and
`reqBody.message`, and returns `!reqBody.completed` (JavaScript
negation, so an absent `completed` is falsy and negates to `true`). -/
def editTodo (params reqBody reqQuery : Json) : Json :=
  .obj [("id", params.getProp "id"),
        ("message", reqBody.getProp "message"),
        ("completed", .bool (!(reqBody.getProp "completed").truthy))]

/-- The primitive types appearing in the repository's schemas. -/
inductive PropType where
  | string
  | boolean

/-- A per-property schema `{"type": ..., "nullable": ...}`.  The
`nullable` keyword is recorded to mirror the schema documents, but an
Ajv instance constructed with default options does not know it and
ignores it during validation. -/
structure PropSchema where
  type : PropType
  nullable : Bool

/-- An object schema `{"type": "object", "properties": ..., "required": ...}`. -/
structure ObjectSchema where
  properties : List (String × PropSchema)
  required : List String

/-- A schema document: either the empty schema `{}` (used when no
schema name is supplied) or an object schema. -/
inductive Schema where
  | empty
  | object (s : ObjectSchema)

/-- Validation of a single typed property value. -/
def validateProp (p : PropSchema) (v : Json) : Bool :=
  match p.type, v with
  | .string, .str _ => true
  | .boolean, .bool _ => true
  | _, _ => false

/-- Ajv validation (`ajv.compile(schema)(v)`): the empty schema accepts
everything; an object schema requires an object, each `required` key
present, and each declared property, when present, of its declared
type (undeclared properties are unconstrained). -/
def validate (s : Schema) (v : Json) : Bool :=
  match s with
  | .empty => true
  | .object os =>
    match v with
    | .obj fields =>
        os.required.all (fun r => !(getField fields r).isUndefined) &&
        os.properties.all (fun kp =>
          (getField fields kp.1).isUndefined || validateProp kp.2 (getField fields kp.1))
    | _ => false

/-- The `schemas` argument of `put`: four optional schema names. -/
structure Schemas where
  paramsSchema : Option String
  reqBodySchema : Option String
  resBodySchema : Option String
  reqQuerySchema : Option String

/-- Schema resolution inside `wrappedController`:
`schemas.x ? require('./schemas/' + schemas.x + '.json') : {}`.
The JavaScript ternary tests truthiness, so the empty string also
resolves to the empty schema. -/
def resolveSchema (loadSchema : String → Schema) : Option String → Schema
  | some name => if name = "" then Schema.empty else loadSchema name
  | none => Schema.empty

/-- The error thrown at a failed validation.  The source builds a
message string from exactly these three data
(`Could not validate <name> <value> against schema <schema>`); the
embedding keeps them as fields. -/
structure ValidationError where
  name : String
  value : Json
  schema : Schema

/-- `validationError` from `src/index.ts`. -/
def validationError (name : String) (value : Json) (schema : Schema) : ValidationError :=
  ⟨name, value, schema⟩

/-- The pipeline stages of the wrapped controller. -/
inductive Stage where
  | params
  | body
  | query
  | handler
  | response
deriving DecidableEq

/-- An observable step of one request's processing: a validation with
its outcome, or the invocation of the controller. -/
inductive StageEvent where
  | validatedParams (ok : Bool)
  | validatedBody (ok : Bool)
  | validatedQuery (ok : Bool)
  | ranHandler
  | validatedResponse (ok : Bool)
deriving DecidableEq

/-- The stage an event belongs to. -/
def stageOf : StageEvent → Stage
  | .validatedParams _ => .params
  | .validatedBody _ => .body
  | .validatedQuery _ => .query
  | .ranHandler => .handler
  | .validatedResponse _ => .response

/-- The fixed order of the pipeline. -/
def pipelineOrder : List Stage :=
  [Stage.params, Stage.body, Stage.query, Stage.handler, Stage.response]

/-- The observable outcome of one request: an uncaught thrown error, or
a response sent with `res.status(st).json(body)`. -/
inductive Outcome where
  | thrown (e : ValidationError)
  | sent (status : Nat) (body : Json)

/-- The three data of an inbound request read by the wrapper. -/
structure Req where
  params : Json
  body : Json
  query : Json

/-- `wrappedController` from `src/index.ts`, for a registration with
schema names `s`, schema store `loadSchema` (the `require` of
`./schemas/<name>.json`) and controller `c`.  Each stage resolves its
schema, validates, and throws on failure; after all three input stages
pass, the controller runs on the request's params, body and query, its
result is validated, and on success it is sent with status 200.  The
second component records the stages executed, in order. -/
def wrappedController (loadSchema : String → Schema) (s : Schemas)
    (c : Json → Json → Json → Json) (req : Req) :
    Outcome × List StageEvent :=
  let paramsSchema := resolveSchema loadSchema s.paramsSchema
  if !validate paramsSchema req.params then
    (Outcome.thrown (validationError "request" req.params paramsSchema),
     [StageEvent.validatedParams false])
  else
    let reqBodySchema := resolveSchema loadSchema s.reqBodySchema
    if !validate reqBodySchema req.body then
      (Outcome.thrown (validationError "body" req.body reqBodySchema),
       [StageEvent.validatedParams true, StageEvent.validatedBody false])
    else
      let reqQuerySchema := resolveSchema loadSchema s.reqQuerySchema
      if !validate reqQuerySchema req.query then
        (Outcome.thrown (validationError "query" req.query reqQuerySchema),
         [StageEvent.validatedParams true, StageEvent.validatedBody true,
          StageEvent.validatedQuery false])
      else
        let resBody := c req.params req.body req.query
        let resBodySchema := resolveSchema loadSchema s.resBodySchema
        if !validate resBodySchema resBody then
          (Outcome.thrown (validationError "response body" resBody resBodySchema),
           [StageEvent.validatedParams true, StageEvent.validatedBody true,
            StageEvent.validatedQuery true, StageEvent.ranHandler,
            StageEvent.validatedResponse false])
        else
          (Outcome.sent 200 resBody,
           [StageEvent.validatedParams true, StageEvent.validatedBody true,
            StageEvent.validatedQuery true, StageEvent.ranHandler,
            StageEvent.validatedResponse true])

/-- `EditTodoParams.json` as given in the repository README. -/
def editTodoParamsJson : Schema :=
  .object { properties := [("id", ⟨.string, false⟩)], required := ["id"] }

/-- `EditTodoReqBody.json` as given in the repository README.  Note the
declared property is literally named `completed?`. -/
def editTodoReqBodyJson : Schema :=
  .object { properties := [("message", ⟨.string, false⟩), ("completed?", ⟨.boolean, true⟩)],
            required := ["message"] }

/-- `EditTodoResBody.json` as given in the repository README. -/
def editTodoResBodyJson : Schema :=
  .object { properties := [("id", ⟨.string, false⟩), ("message", ⟨.string, false⟩),
                           ("completed", ⟨.boolean, false⟩)],
            required := ["id", "message", "completed"] }

/-- The schema store backing `require('./schemas/<name>.json')` for the
names used by the example registration; `require` of any other name
would fail to find a module, which no execution of this program does. -/
def schemaFile : String → Schema
  | "EditTodoParams" => editTodoParamsJson
  | "EditTodoReqBody" => editTodoReqBodyJson
  | "EditTodoResBody" => editTodoResBodyJson
  | _ => Schema.empty

/-- The schema names of the example registration for `/todo/:id`. -/
def exampleSchemas : Schemas :=
  { paramsSchema := some "EditTodoParams",
    reqBodySchema := some "EditTodoReqBody",
    resBodySchema := some "EditTodoResBody",
    reqQuerySchema := none }

/-- All three input validations pass. -/
def inputsPass (loadSchema : String → Schema) (s : Schemas) (req : Req) : Bool :=
  validate (resolveSchema loadSchema s.paramsSchema) req.params &&
  validate (resolveSchema loadSchema s.reqBodySchema) req.body &&
  validate (resolveSchema loadSchema s.reqQuerySchema) req.query

/-- All four validations pass (including the response validation of the
controller's result). -/
def allPass (loadSchema : String → Schema) (s : Schemas)
    (c : Json → Json → Json → Json) (req : Req) : Bool :=
  inputsPass loadSchema s req &&
  validate (resolveSchema loadSchema s.resBodySchema) (c req.params req.body req.query)

/-! ### Branch lemmas for the wrapped controller -/

/-- If the params validation fails, the controller returns at once. -/
theorem wrappedController_params_fail (loadSchema : String → Schema) (s : Schemas)
    (c : Json → Json → Json → Json) (req : Req)
    (hp : validate (resolveSchema loadSchema s.paramsSchema) req.params = false) :
    wrappedController loadSchema s c req =
      (Outcome.thrown (validationError "request" req.params
         (resolveSchema loadSchema s.paramsSchema)),
       [StageEvent.validatedParams false]) := by
  simp [wrappedController, hp]

/-- If the params validation passes and the body validation fails, the
controller returns after the body stage. -/
theorem wrappedController_body_fail (loadSchema : String → Schema) (s : Schemas)
    (c : Json → Json → Json → Json) (req : Req)
    (hp : validate (resolveSchema loadSchema s.paramsSchema) req.params = true)
    (hb : validate (resolveSchema loadSchema s.reqBodySchema) req.body = false) :
    wrappedController loadSchema s c req =
      (Outcome.thrown (validationError "body" req.body
         (resolveSchema loadSchema s.reqBodySchema)),
       [StageEvent.validatedParams true, StageEvent.validatedBody false]) := by
  simp [wrappedController, hp, hb]

/-- If params and body pass and the query validation fails, the
controller returns after the query stage. -/
theorem wrappedController_query_fail (loadSchema : String → Schema) (s : Schemas)
    (c : Json → Json → Json → Json) (req : Req)
    (hp : validate (resolveSchema loadSchema s.paramsSchema) req.params = true)
    (hb : validate (resolveSchema loadSchema s.reqBodySchema) req.body = true)
    (hq : validate (resolveSchema loadSchema s.reqQuerySchema) req.query = false) :
    wrappedController loadSchema s c req =
      (Outcome.thrown (validationError "query" req.query
         (resolveSchema loadSchema s.reqQuerySchema)),
       [StageEvent.validatedParams true, StageEvent.validatedBody true,
        StageEvent.validatedQuery false]) := by
  simp [wrappedController, hp, hb, hq]

/-- If the three input validations pass and the controller's result
fails the response validation, the error is thrown and nothing is
sent, although the handler did run. -/
theorem wrappedController_response_fail (loadSchema : String → Schema) (s : Schemas)
    (c : Json → Json → Json → Json) (req : Req)
    (hp : validate (resolveSchema loadSchema s.paramsSchema) req.params = true)
    (hb : validate (resolveSchema loadSchema s.reqBodySchema) req.body = true)
    (hq : validate (resolveSchema loadSchema s.reqQuerySchema) req.query = true)
    (hr : validate (resolveSchema loadSchema s.resBodySchema)
            (c req.params req.body req.query) = false) :
    wrappedController loadSchema s c req =
      (Outcome.thrown (validationError "response body" (c req.params req.body req.query)
         (resolveSchema loadSchema s.resBodySchema)),
       [StageEvent.validatedParams true, StageEvent.validatedBody true,
        StageEvent.validatedQuery true, StageEvent.ranHandler,
        StageEvent.validatedResponse false]) := by
  simp [wrappedController, hp, hb, hq, hr]

/-- If all four validations pass, the controller's result is sent with
status 200. -/
theorem wrappedController_success (loadSchema : String → Schema) (s : Schemas)
    (c : Json → Json → Json → Json) (req : Req)
    (hp : validate (resolveSchema loadSchema s.paramsSchema) req.params = true)
    (hb : validate (resolveSchema loadSchema s.reqBodySchema) req.body = true)
    (hq : validate (resolveSchema loadSchema s.reqQuerySchema) req.query = true)
    (hr : validate (resolveSchema loadSchema s.resBodySchema)
            (c req.params req.body req.query) = true) :
    wrappedController loadSchema s c req =
      (Outcome.sent 200 (c req.params req.body req.query),
       [StageEvent.validatedParams true, StageEvent.validatedBody true,
        StageEvent.validatedQuery true, StageEvent.ranHandler,
        StageEvent.validatedResponse true]) := by
  simp [wrappedController, hp, hb, hq, hr]

/-! ### Claims -/

/-- C1: for every registered route and inbound request the pipeline
runs in the fixed order params → body → query → handler → response
(the executed stages are an initial segment of that order), and the
first validation failure short-circuits all later steps: a params
failure stops after the params validation (so body and query
validation never run and the handler is never invoked), a body
failure stops after the body validation, a query failure stops after
the query validation, and a response failure stops after the response
validation without sending; in each case the outcome is exactly that
stage's error and the trace ends at the failed stage. -/
theorem c1_pipeline_order_short_circuit (loadSchema : String → Schema) (s : Schemas)
    (c : Json → Json → Json → Json) (req : Req) :
    (∃ n, (wrappedController loadSchema s c req).2.map stageOf = pipelineOrder.take n) ∧
    (validate (resolveSchema loadSchema s.paramsSchema) req.params = false →
      wrappedController loadSchema s c req =
        (Outcome.thrown (validationError "request" req.params
           (resolveSchema loadSchema s.paramsSchema)),
         [StageEvent.validatedParams false])) ∧
    (validate (resolveSchema loadSchema s.paramsSchema) req.params = true →
     validate (resolveSchema loadSchema s.reqBodySchema) req.body = false →
      wrappedController loadSchema s c req =
        (Outcome.thrown (validationError "body" req.body
           (resolveSchema loadSchema s.reqBodySchema)),
         [StageEvent.validatedParams true, StageEvent.validatedBody false])) ∧
    (validate (resolveSchema loadSchema s.paramsSchema) req.params = true →
     validate (resolveSchema loadSchema s.reqBodySchema) req.body = true →
     validate (resolveSchema loadSchema s.reqQuerySchema) req.query = false →
      wrappedController loadSchema s c req =
        (Outcome.thrown (validationError "query" req.query
           (resolveSchema loadSchema s.reqQuerySchema)),
         [StageEvent.validatedParams true, StageEvent.validatedBody true,
          StageEvent.validatedQuery false])) ∧
    (validate (resolveSchema loadSchema s.paramsSchema) req.params = true →
     validate (resolveSchema loadSchema s.reqBodySchema) req.body = true →
     validate (resolveSchema loadSchema s.reqQuerySchema) req.query = true →
     validate (resolveSchema loadSchema s.resBodySchema)
         (c req.params req.body req.query) = false →
      wrappedController loadSchema s c req =
        (Outcome.thrown (validationError "response body" (c req.params req.body req.query)
           (resolveSchema loadSchema s.resBodySchema)),
         [StageEvent.validatedParams true, StageEvent.validatedBody true,
          StageEvent.validatedQuery true, StageEvent.ranHandler,
          StageEvent.validatedResponse false])) := by
  refine ⟨?_, wrappedController_params_fail loadSchema s c req,
    wrappedController_body_fail loadSchema s c req,
    wrappedController_query_fail loadSchema s c req,
    wrappedController_response_fail loadSchema s c req⟩
  · cases hp : validate (resolveSchema loadSchema s.paramsSchema) req.params with
    | false => exact ⟨1, by rw [wrappedController_params_fail loadSchema s c req hp]; rfl⟩
    | true =>
      cases hb : validate (resolveSchema loadSchema s.reqBodySchema) req.body with
      | false => exact ⟨2, by rw [wrappedController_body_fail loadSchema s c req hp hb]; rfl⟩
      | true =>
        cases hq : validate (resolveSchema loadSchema s.reqQuerySchema) req.query with
        | false => exact ⟨3, by rw [wrappedController_query_fail loadSchema s c req hp hb hq]; rfl⟩
        | true =>
          cases hr : validate (resolveSchema loadSchema s.resBodySchema)
              (c req.params req.body req.query) with
          | false =>
              exact ⟨5, by rw [wrappedController_response_fail loadSchema s c req hp hb hq hr]; rfl⟩
          | true =>
              exact ⟨5, by rw [wrappedController_success loadSchema s c req hp hb hq hr]; rfl⟩

/-- Witness for C1: the example route with params missing `id` (the
pipeline stops at the params stage), and with valid params but a body
missing `message` (the pipeline stops at the body stage). -/
theorem c1_witness :
    validate (resolveSchema schemaFile exampleSchemas.paramsSchema) (Json.obj []) = false ∧
    wrappedController schemaFile exampleSchemas editTodo
      ⟨Json.obj [], Json.obj [("message", Json.str "todo")], Json.obj []⟩ =
      (Outcome.thrown (validationError "request" (Json.obj [])
         (resolveSchema schemaFile exampleSchemas.paramsSchema)),
       [StageEvent.validatedParams false]) ∧
    validate (resolveSchema schemaFile exampleSchemas.paramsSchema)
      (Json.obj [("id", Json.str "2")]) = true ∧
    validate (resolveSchema schemaFile exampleSchemas.reqBodySchema) (Json.obj []) = false ∧
    wrappedController schemaFile exampleSchemas editTodo
      ⟨Json.obj [("id", Json.str "2")], Json.obj [], Json.obj []⟩ =
      (Outcome.thrown (validationError "body" (Json.obj [])
         (resolveSchema schemaFile exampleSchemas.reqBodySchema)),
       [StageEvent.validatedParams true, StageEvent.validatedBody false]) :=
  ⟨rfl,
    (c1_pipeline_order_short_circuit schemaFile exampleSchemas editTodo
      ⟨Json.obj [], Json.obj [("message", Json.str "todo")], Json.obj []⟩).2.1 rfl,
    rfl, rfl,
    (c1_pipeline_order_short_circuit schemaFile exampleSchemas editTodo
      ⟨Json.obj [("id", Json.str "2")], Json.obj [], Json.obj []⟩).2.2.1 rfl rfl⟩

/-- C2: `editTodo` echoes `params.id` and `body.message` and negates
`body.completed` (absent `completed` is falsy, so it negates to
`true`); in particular on params `{id: "1"}` and body
`{message: "todo"}` it returns `{id: "1", message: "todo",
completed: true}`, and with `completed: true` in the body it returns
`completed: false`. -/
theorem c2_editTodo_behaviour :
    (∀ p b q : Json,
        (editTodo p b q).getProp "id" = p.getProp "id" ∧
        (editTodo p b q).getProp "message" = b.getProp "message" ∧
        (editTodo p b q).getProp "completed" = Json.bool (!(b.getProp "completed").truthy)) ∧
    editTodo (Json.obj [("id", Json.str "1")]) (Json.obj [("message", Json.str "todo")])
        (Json.obj []) =
      Json.obj [("id", Json.str "1"), ("message", Json.str "todo"),
                ("completed", Json.bool true)] ∧
    (editTodo (Json.obj [("id", Json.str "1")])
        (Json.obj [("message", Json.str "todo"), ("completed", Json.bool true)])
        (Json.obj [])).getProp "completed" = Json.bool false :=
  ⟨fun _ _ _ => ⟨rfl, rfl, rfl⟩, rfl, rfl⟩

/-- C3: the wrapper sends a response iff all four validations succeed;
on full success it sends the handler's value with status 200, and on
any failure it throws instead of sending. -/
theorem c3_send_iff_all_validations (loadSchema : String → Schema) (s : Schemas)
    (c : Json → Json → Json → Json) (req : Req) :
    ((∃ st b, (wrappedController loadSchema s c req).1 = Outcome.sent st b) ↔
       allPass loadSchema s c req = true) ∧
    (allPass loadSchema s c req = true →
       (wrappedController loadSchema s c req).1 =
         Outcome.sent 200 (c req.params req.body req.query)) ∧
    (allPass loadSchema s c req = false →
       ∃ e, (wrappedController loadSchema s c req).1 = Outcome.thrown e) := by
  cases hp : validate (resolveSchema loadSchema s.paramsSchema) req.params with
  | false =>
      rw [wrappedController_params_fail loadSchema s c req hp]
      simp [allPass, inputsPass, hp]
  | true =>
    cases hb : validate (resolveSchema loadSchema s.reqBodySchema) req.body with
    | false =>
        rw [wrappedController_body_fail loadSchema s c req hp hb]
        simp [allPass, inputsPass, hp, hb]
    | true =>
      cases hq : validate (resolveSchema loadSchema s.reqQuerySchema) req.query with
      | false =>
          rw [wrappedController_query_fail loadSchema s c req hp hb hq]
          simp [allPass, inputsPass, hp, hb, hq]
      | true =>
        cases hr : validate (resolveSchema loadSchema s.resBodySchema)
            (c req.params req.body req.query) with
        | false =>
            rw [wrappedController_response_fail loadSchema s c req hp hb hq hr]
            simp [allPass, inputsPass, hp, hb, hq, hr]
        | true =>
            rw [wrappedController_success loadSchema s c req hp hb hq hr]
            simp [allPass, inputsPass, hp, hb, hq, hr]

/-- Witness for C3: the example route on a fully valid request. -/
theorem c3_witness :
    allPass schemaFile exampleSchemas editTodo
      ⟨Json.obj [("id", Json.str "1")], Json.obj [("message", Json.str "todo")],
       Json.obj []⟩ = true ∧
    (wrappedController schemaFile exampleSchemas editTodo
      ⟨Json.obj [("id", Json.str "1")], Json.obj [("message", Json.str "todo")],
       Json.obj []⟩).1 =
      Outcome.sent 200 (editTodo (Json.obj [("id", Json.str "1")])
        (Json.obj [("message", Json.str "todo")]) (Json.obj [])) :=
  ⟨rfl, (c3_send_iff_all_validations schemaFile exampleSchemas editTodo
      ⟨Json.obj [("id", Json.str "1")], Json.obj [("message", Json.str "todo")],
       Json.obj []⟩).2.1 rfl⟩

/-- C4: every thrown error is a `validationError` naming the failing
payload ("request" for params, "body", "query", "response body"),
carrying the offending value and the schema it failed against. -/
theorem c4_error_parameterization (loadSchema : String → Schema) (s : Schemas)
    (c : Json → Json → Json → Json) (req : Req) (e : ValidationError)
    (h : (wrappedController loadSchema s c req).1 = Outcome.thrown e) :
    (validate (resolveSchema loadSchema s.paramsSchema) req.params = false ∧
       e = validationError "request" req.params (resolveSchema loadSchema s.paramsSchema)) ∨
    (validate (resolveSchema loadSchema s.reqBodySchema) req.body = false ∧
       e = validationError "body" req.body (resolveSchema loadSchema s.reqBodySchema)) ∨
    (validate (resolveSchema loadSchema s.reqQuerySchema) req.query = false ∧
       e = validationError "query" req.query (resolveSchema loadSchema s.reqQuerySchema)) ∨
    (validate (resolveSchema loadSchema s.resBodySchema)
        (c req.params req.body req.query) = false ∧
       e = validationError "response body" (c req.params req.body req.query)
             (resolveSchema loadSchema s.resBodySchema)) := by
  cases hp : validate (resolveSchema loadSchema s.paramsSchema) req.params with
  | false =>
      rw [wrappedController_params_fail loadSchema s c req hp] at h
      exact Or.inl ⟨rfl, (Outcome.thrown.inj h).symm⟩
  | true =>
    cases hb : validate (resolveSchema loadSchema s.reqBodySchema) req.body with
    | false =>
        rw [wrappedController_body_fail loadSchema s c req hp hb] at h
        exact Or.inr (Or.inl ⟨rfl, (Outcome.thrown.inj h).symm⟩)
    | true =>
      cases hq : validate (resolveSchema loadSchema s.reqQuerySchema) req.query with
      | false =>
          rw [wrappedController_query_fail loadSchema s c req hp hb hq] at h
          exact Or.inr (Or.inr (Or.inl ⟨rfl, (Outcome.thrown.inj h).symm⟩))
      | true =>
        cases hr : validate (resolveSchema loadSchema s.resBodySchema)
            (c req.params req.body req.query) with
        | false =>
            rw [wrappedController_response_fail loadSchema s c req hp hb hq hr] at h
            exact Or.inr (Or.inr (Or.inr ⟨rfl, (Outcome.thrown.inj h).symm⟩))
        | true =>
            rw [wrappedController_success loadSchema s c req hp hb hq hr] at h
            simp at h

/-- Witness for C4: the example route with params missing `id`. -/
theorem c4_witness :
    (validate (resolveSchema schemaFile exampleSchemas.paramsSchema) (Json.obj []) = false ∧
       validationError "request" (Json.obj [])
           (resolveSchema schemaFile exampleSchemas.paramsSchema) =
         validationError "request" (Json.obj [])
           (resolveSchema schemaFile exampleSchemas.paramsSchema)) ∨
    (validate (resolveSchema schemaFile exampleSchemas.reqBodySchema) (Json.obj []) = false ∧
       validationError "request" (Json.obj [])
           (resolveSchema schemaFile exampleSchemas.paramsSchema) =
         validationError "body" (Json.obj [])
           (resolveSchema schemaFile exampleSchemas.reqBodySchema)) ∨
    (validate (resolveSchema schemaFile exampleSchemas.reqQuerySchema) (Json.obj []) = false ∧
       validationError "request" (Json.obj [])
           (resolveSchema schemaFile exampleSchemas.paramsSchema) =
         validationError "query" (Json.obj [])
           (resolveSchema schemaFile exampleSchemas.reqQuerySchema)) ∨
    (validate (resolveSchema schemaFile exampleSchemas.resBodySchema)
        (editTodo (Json.obj []) (Json.obj []) (Json.obj [])) = false ∧
       validationError "request" (Json.obj [])
           (resolveSchema schemaFile exampleSchemas.paramsSchema) =
         validationError "response body" (editTodo (Json.obj []) (Json.obj []) (Json.obj []))
           (resolveSchema schemaFile exampleSchemas.resBodySchema)) :=
  c4_error_parameterization schemaFile exampleSchemas editTodo
    ⟨Json.obj [], Json.obj [], Json.obj []⟩
    (validationError "request" (Json.obj [])
      (resolveSchema schemaFile exampleSchemas.paramsSchema)) rfl

/-- C5: an absent schema reference resolves to the empty schema, which
accepts every payload; in particular a registration without a query
schema can never fail its query-validation stage. -/
theorem c5_missing_reference_accepts_everything (loadSchema : String → Schema) :
    resolveSchema loadSchema none = Schema.empty ∧
    (∀ v : Json, validate (resolveSchema loadSchema none) v = true) ∧
    (∀ (s : Schemas) (c : Json → Json → Json → Json) (req : Req),
        s.reqQuerySchema = none →
        StageEvent.validatedQuery false ∉ (wrappedController loadSchema s c req).2) := by
  refine ⟨rfl, fun _ => rfl, ?_⟩
  intro s c req hnone
  cases hp : validate (resolveSchema loadSchema s.paramsSchema) req.params with
  | false => rw [wrappedController_params_fail loadSchema s c req hp]; simp
  | true =>
    cases hb : validate (resolveSchema loadSchema s.reqBodySchema) req.body with
    | false => rw [wrappedController_body_fail loadSchema s c req hp hb]; simp
    | true =>
      have hq : validate (resolveSchema loadSchema s.reqQuerySchema) req.query = true := by
        rw [hnone]
        rfl
      cases hr : validate (resolveSchema loadSchema s.resBodySchema)
          (c req.params req.body req.query) with
      | false => rw [wrappedController_response_fail loadSchema s c req hp hb hq hr]; simp
      | true => rw [wrappedController_success loadSchema s c req hp hb hq hr]; simp

/-- Witness for C5: the example registration has no query schema, so no
request produces a failed query validation. -/
theorem c5_witness :
    exampleSchemas.reqQuerySchema = none ∧
    StageEvent.validatedQuery false ∉
      (wrappedController schemaFile exampleSchemas editTodo
        ⟨Json.obj [], Json.obj [], Json.obj [("junk", Json.num 3)]⟩).2 :=
  ⟨rfl, (c5_missing_reference_accepts_everything schemaFile).2.2 exampleSchemas editTodo
    ⟨Json.obj [], Json.obj [], Json.obj [("junk", Json.num 3)]⟩ rfl⟩

/-- C6: when params, body and query all pass but the handler's result
violates the response schema, the pipeline fails at the
response-validation stage: the handler has run, yet the erroneous
value is never sent. -/
theorem c6_response_violation_not_sent (loadSchema : String → Schema) (s : Schemas)
    (c : Json → Json → Json → Json) (req : Req)
    (hp : validate (resolveSchema loadSchema s.paramsSchema) req.params = true)
    (hb : validate (resolveSchema loadSchema s.reqBodySchema) req.body = true)
    (hq : validate (resolveSchema loadSchema s.reqQuerySchema) req.query = true)
    (hr : validate (resolveSchema loadSchema s.resBodySchema)
            (c req.params req.body req.query) = false) :
    (wrappedController loadSchema s c req).1 =
      Outcome.thrown (validationError "response body" (c req.params req.body req.query)
        (resolveSchema loadSchema s.resBodySchema)) ∧
    StageEvent.ranHandler ∈ (wrappedController loadSchema s c req).2 ∧
    ∀ st b, (wrappedController loadSchema s c req).1 ≠ Outcome.sent st b := by
  rw [wrappedController_response_fail loadSchema s c req hp hb hq hr]
  refine ⟨rfl, by simp, ?_⟩
  intro st b
  simp

/-- Witness for C6: the example schemas with a controller returning
`null`, which violates the response schema. -/
theorem c6_witness :
    validate (resolveSchema schemaFile exampleSchemas.paramsSchema)
      (Json.obj [("id", Json.str "1")]) = true ∧
    validate (resolveSchema schemaFile exampleSchemas.reqBodySchema)
      (Json.obj [("message", Json.str "todo")]) = true ∧
    validate (resolveSchema schemaFile exampleSchemas.reqQuerySchema) (Json.obj []) = true ∧
    validate (resolveSchema schemaFile exampleSchemas.resBodySchema) Json.null = false ∧
    ((wrappedController schemaFile exampleSchemas (fun _ _ _ => Json.null)
        ⟨Json.obj [("id", Json.str "1")], Json.obj [("message", Json.str "todo")],
         Json.obj []⟩).1 =
       Outcome.thrown (validationError "response body" Json.null
         (resolveSchema schemaFile exampleSchemas.resBodySchema)) ∧
     StageEvent.ranHandler ∈
       (wrappedController schemaFile exampleSchemas (fun _ _ _ => Json.null)
         ⟨Json.obj [("id", Json.str "1")], Json.obj [("message", Json.str "todo")],
          Json.obj []⟩).2 ∧
     ∀ st b,
       (wrappedController schemaFile exampleSchemas (fun _ _ _ => Json.null)
         ⟨Json.obj [("id", Json.str "1")], Json.obj [("message", Json.str "todo")],
          Json.obj []⟩).1 ≠ Outcome.sent st b) :=
  ⟨rfl, rfl, rfl, rfl,
    c6_response_violation_not_sent schemaFile exampleSchemas (fun _ _ _ => Json.null)
      ⟨Json.obj [("id", Json.str "1")], Json.obj [("message", Json.str "todo")],
       Json.obj []⟩ rfl rfl rfl rfl⟩

/-- A body without a `message` property fails the example body schema:
either the body is not an object, or the required key is absent. -/
theorem validate_reqBody_missing_message (b : Json)
    (h : b.getProp "message" = Json.undefined) :
    validate (resolveSchema schemaFile exampleSchemas.reqBodySchema) b = false := by
  cases b with
  | obj fields =>
      have h2 : getField fields "message" = Json.undefined := h
      rw [show resolveSchema schemaFile exampleSchemas.reqBodySchema = editTodoReqBodyJson
        from rfl]
      simp [validate, editTodoReqBodyJson, h2, Json.isUndefined]
  | undefined => rfl
  | null => rfl
  | bool b => rfl
  | num n => rfl
  | str s => rfl

/-- C7: on the example route (whose path template `/todo/:id`
guarantees that the router-supplied params are `{id: <string>}`),
every request whose body lacks `message` fails at the body-validation
stage: the thrown error is the body error, and the trace stops after
the failed body validation, so `editTodo` is never invoked. -/
theorem c7_missing_message_fails_body_stage (idVal : String) (req : Req)
    (hparams : req.params = Json.obj [("id", Json.str idVal)])
    (hmsg : req.body.getProp "message" = Json.undefined) :
    wrappedController schemaFile exampleSchemas editTodo req =
      (Outcome.thrown (validationError "body" req.body
         (resolveSchema schemaFile exampleSchemas.reqBodySchema)),
       [StageEvent.validatedParams true, StageEvent.validatedBody false]) := by
  have hp : validate (resolveSchema schemaFile exampleSchemas.paramsSchema) req.params = true := by
    rw [hparams]
    rfl
  exact wrappedController_body_fail schemaFile exampleSchemas editTodo req hp
    (validate_reqBody_missing_message req.body hmsg)

/-- Witness for C7: the empty body `{}` with params `{id: "1"}`. -/
theorem c7_witness :
    (⟨Json.obj [("id", Json.str "1")], Json.obj [], Json.obj []⟩ : Req).params =
      Json.obj [("id", Json.str "1")] ∧
    (⟨Json.obj [("id", Json.str "1")], Json.obj [], Json.obj []⟩ : Req).body.getProp
      "message" = Json.undefined ∧
    wrappedController schemaFile exampleSchemas editTodo
      ⟨Json.obj [("id", Json.str "1")], Json.obj [], Json.obj []⟩ =
      (Outcome.thrown (validationError "body" (Json.obj [])
         (resolveSchema schemaFile exampleSchemas.reqBodySchema)),
       [StageEvent.validatedParams true, StageEvent.validatedBody false]) :=
  ⟨rfl, rfl,
    c7_missing_message_fails_body_stage "1"
      ⟨Json.obj [("id", Json.str "1")], Json.obj [], Json.obj []⟩ rfl rfl⟩

/-- C8: a request whose params, body and query all satisfy their
schemas is passed through unchanged — the controller runs (the trace
records it) on exactly the request's params, body and query, whose
result is either sent or rejected by the response validation — while a
request violating one of the input schemas is rejected by a thrown
error before the controller ever runs. -/
theorem c8_pass_through_and_reject (loadSchema : String → Schema) (s : Schemas)
    (c : Json → Json → Json → Json) (req : Req) :
    (inputsPass loadSchema s req = true →
       ((wrappedController loadSchema s c req).1 =
           Outcome.sent 200 (c req.params req.body req.query) ∨
        (wrappedController loadSchema s c req).1 =
           Outcome.thrown (validationError "response body" (c req.params req.body req.query)
             (resolveSchema loadSchema s.resBodySchema))) ∧
       StageEvent.ranHandler ∈ (wrappedController loadSchema s c req).2) ∧
    (inputsPass loadSchema s req = false →
       StageEvent.ranHandler ∉ (wrappedController loadSchema s c req).2 ∧
       ∃ e, (wrappedController loadSchema s c req).1 = Outcome.thrown e) := by
  cases hp : validate (resolveSchema loadSchema s.paramsSchema) req.params with
  | false =>
      rw [wrappedController_params_fail loadSchema s c req hp]
      constructor
      · intro hIn
        simp [inputsPass, hp] at hIn
      · intro _
        exact ⟨by simp, ⟨_, rfl⟩⟩
  | true =>
    cases hb : validate (resolveSchema loadSchema s.reqBodySchema) req.body with
    | false =>
        rw [wrappedController_body_fail loadSchema s c req hp hb]
        constructor
        · intro hIn
          simp [inputsPass, hp, hb] at hIn
        · intro _
          exact ⟨by simp, ⟨_, rfl⟩⟩
    | true =>
      cases hq : validate (resolveSchema loadSchema s.reqQuerySchema) req.query with
      | false =>
          rw [wrappedController_query_fail loadSchema s c req hp hb hq]
          constructor
          · intro hIn
            simp [inputsPass, hp, hb, hq] at hIn
          · intro _
            exact ⟨by simp, ⟨_, rfl⟩⟩
      | true =>
        constructor
        · intro _
          cases hr : validate (resolveSchema loadSchema s.resBodySchema)
              (c req.params req.body req.query) with
          | false =>
              rw [wrappedController_response_fail loadSchema s c req hp hb hq hr]
              exact ⟨Or.inr rfl, by simp⟩
          | true =>
              rw [wrappedController_success loadSchema s c req hp hb hq hr]
              exact ⟨Or.inl rfl, by simp⟩
        · intro hIn
          simp [inputsPass, hp, hb, hq] at hIn

/-- Witness for C8: the example route on a fully valid request. -/
theorem c8_witness :
    inputsPass schemaFile exampleSchemas
      ⟨Json.obj [("id", Json.str "1")], Json.obj [("message", Json.str "todo")],
       Json.obj []⟩ = true ∧
    (((wrappedController schemaFile exampleSchemas editTodo
         ⟨Json.obj [("id", Json.str "1")], Json.obj [("message", Json.str "todo")],
          Json.obj []⟩).1 =
        Outcome.sent 200 (editTodo (Json.obj [("id", Json.str "1")])
          (Json.obj [("message", Json.str "todo")]) (Json.obj [])) ∨
      (wrappedController schemaFile exampleSchemas editTodo
         ⟨Json.obj [("id", Json.str "1")], Json.obj [("message", Json.str "todo")],
          Json.obj []⟩).1 =
        Outcome.thrown (validationError "response body"
          (editTodo (Json.obj [("id", Json.str "1")])
            (Json.obj [("message", Json.str "todo")]) (Json.obj []))
          (resolveSchema schemaFile exampleSchemas.resBodySchema))) ∧
     StageEvent.ranHandler ∈
       (wrappedController schemaFile exampleSchemas editTodo
         ⟨Json.obj [("id", Json.str "1")], Json.obj [("message", Json.str "todo")],
          Json.obj []⟩).2) :=
  ⟨rfl, (c8_pass_through_and_reject schemaFile exampleSchemas editTodo
      ⟨Json.obj [("id", Json.str "1")], Json.obj [("message", Json.str "todo")],
       Json.obj []⟩).1 rfl⟩

/-- C9: the pipeline is a pure function of the request's params, body
and query — two requests agreeing on those three produce identical
outcomes and traces, so issuing the same valid request twice yields
structurally identical responses. -/
theorem c9_deterministic_in_request_data (loadSchema : String → Schema) (s : Schemas)
    (c : Json → Json → Json → Json) (req1 req2 : Req)
    (hp : req1.params = req2.params) (hb : req1.body = req2.body)
    (hq : req1.query = req2.query) :
    wrappedController loadSchema s c req1 = wrappedController loadSchema s c req2 := by
  have h : req1 = req2 := by
    cases req1
    cases req2
    simp_all
  rw [h]

/-- Witness for C9: the example valid request issued twice. -/
theorem c9_witness :
    wrappedController schemaFile exampleSchemas editTodo
      ⟨Json.obj [("id", Json.str "1")], Json.obj [("message", Json.str "todo")],
       Json.obj []⟩ =
    wrappedController schemaFile exampleSchemas editTodo
      ⟨Json.obj [("id", Json.str "1")], Json.obj [("message", Json.str "todo")],
       Json.obj []⟩ :=
  c9_deterministic_in_request_data schemaFile exampleSchemas editTodo
    ⟨Json.obj [("id", Json.str "1")], Json.obj [("message", Json.str "todo")],
     Json.obj []⟩
    ⟨Json.obj [("id", Json.str "1")], Json.obj [("message", Json.str "todo")],
     Json.obj []⟩ rfl rfl rfl

/-- C10: `editTodo` never reads its query argument: any two query
values produce the same result. -/
theorem c10_editTodo_independent_of_query (p b q1 q2 : Json) :
    editTodo p b q1 = editTodo p b q2 := rfl

end ExpressSwagger
